import Mathlib

/-!
Verification of the `source_checker` byte-level scanner
(`src/source_checker/main.cpp`).

The program scans each file byte by byte with a hand-rolled finite state
machine and reports coding-convention incidents (tabs, CRLF, bare CR,
C0 control bytes, malformed UTF-8, missing final EOL).  We embed the
scanner shallowly:

* a byte is a `Nat` (the value of the `unsigned char` view of the C++
  `char`; for byte values 0..255 all mask tests of the C++ code agree
  with the `Nat` bitwise operations used here, because the masks only
  touch the low 8 bits and the comparison constants are below 0x100);
* the `State` enum is kept as its underlying integer value
  (`S_NORMAL = 0`, `S_BOL = 1`, `S_CR = 2`, `S_UTF_EXPECT3 = 3`,
  `S_UTF_EXPECT2 = 4`, `S_UTF_EXPECT1 = 5`), so that the `default:`
  branch of the C++ `switch` (which contains `assert(0)`) can be
  modelled honestly by an `assertFailed` flag instead of being erased
  by an exhaustive inductive match;
* `std::cout` output is modelled as a list of emitted lines.

The C++ read loop is

    while (ifs) { char c; ifs.get(c); ... switch (ss) ... }

The loop condition is tested *before* the read, and a failing
`ifs.get(c)` leaves `c` unchanged, so after the last byte of the file
one extra iteration runs, classifying the final byte a second time
(and, for an empty file, classifying the indeterminate initial value
of `c`).  `scanFile` reproduces this faithfully; the indeterminate
initial value of `c` is the explicit parameter `c0`.
-/

/-- Incident message identities, one per fixed message string of the
program.  `tab` = "Tab character", `badUtf` = "Bad multibyte sequence",
`ctrl` = "Unexpected control character", `crlf` = "Windows newline
sequence (CR,LF)", `bareCr` = "Old-time MacOS newline sequence (CR)",
`missingEol` = "Missing EOL at end of file". -/
inductive Msg where
  | tab
  | badUtf
  | ctrl
  | crlf
  | bareCr
  | missingEol
deriving DecidableEq

/-- The mutable state of `checkOneFile`: the state-machine variable
`ss` (kept as the integer value of the C++ `State` enum), the six
counters, the lines printed so far (each an incident message together
with the printed line number `line_count + 1`), and a flag recording
whether the `assert(0)` in the `default:` branch was ever reached. -/
structure ScanState where
  ss : Nat
  lineCount : Nat
  tabCount : Nat
  crlfCount : Nat
  crCount : Nat
  c1Count : Nat
  badUtfCount : Nat
  out : List (Msg × Nat)
  assertFailed : Bool
deriving DecidableEq

/-- `bool isUtf8Trailer(char c) { return (c & 0xc0) == 0x80; }` -/
def isUtf8Trailer (c : Nat) : Bool := c &&& 0xc0 == 0x80

/-- `bool isUtf8Header1(char c) { return (c & 0xe0) == 0xc0; }` -/
def isUtf8Header1 (c : Nat) : Bool := c &&& 0xe0 == 0xc0

/-- `bool isUtf8Header2(char c) { return (c & 0xf0) == 0xe0; }` -/
def isUtf8Header2 (c : Nat) : Bool := c &&& 0xf0 == 0xe0

/-- `bool isUtf8Header3(char c) { return (c & 0xf8) == 0xf0; }` -/
def isUtf8Header3 (c : Nat) : Bool := c &&& 0xf8 == 0xf0

/-- `void report(int incident_count, const char *msg, const char *filename,
int line_count)`: print the incident just once per file, namely when its
counter has just become 1; the printed line number is `line_count + 1`. -/
def report (incidentCount : Nat) (msg : Msg) (lineCount : Nat)
    (out : List (Msg × Nat)) : List (Msg × Nat) :=
  if incidentCount = 1 then out ++ [(msg, lineCount + 1)] else out

/-- The `case S_BOL` / `case S_NORMAL` part of the `switch (ss)`:
`S_BOL` merely sets `ss = S_NORMAL` and falls through, so both cases
run the inner `switch (c)` with `ss` equal to `S_NORMAL` (0). -/
def dispatchNormal (st0 : ScanState) (c : Nat) : ScanState :=
  let st := { st0 with ss := 0 }
  if c = 10 then
    -- case '\n'
    { st with lineCount := st.lineCount + 1, ss := 1 }
  else if c = 13 then
    -- case '\r'
    { st with ss := 2 }
  else if c = 9 then
    -- case '\t'
    { st with tabCount := st.tabCount + 1,
              out := report (st.tabCount + 1) Msg.tab st.lineCount st.out }
  else if isUtf8Header3 c then
    { st with ss := 3 }
  else if isUtf8Header2 c then
    { st with ss := 4 }
  else if isUtf8Header1 c then
    { st with ss := 5 }
  else if isUtf8Trailer c then
    { st with badUtfCount := st.badUtfCount + 1,
              out := report (st.badUtfCount + 1) Msg.badUtf st.lineCount st.out }
  else if c < 0x20 then
    { st with c1Count := st.c1Count + 1,
              out := report (st.c1Count + 1) Msg.ctrl st.lineCount st.out }
  else
    st

/-- The bare-CR incident of `case S_CR` when the byte after a CR is not
a LF: count and report the CR, bump the line counter (the report uses
the value before the bump), set `ss = S_BOL`.  The code then jumps to
`reenter_point` without consuming the byte. -/
def crIncident (st : ScanState) : ScanState :=
  { st with crCount := st.crCount + 1,
            out := report (st.crCount + 1) Msg.bareCr st.lineCount st.out,
            lineCount := st.lineCount + 1,
            ss := 1 }

/-- One execution of the body of the `switch (ss)` on the current byte
`c`, including the `goto reenter_point` of the bare-CR case (which
re-dispatches the same byte under `S_BOL`, i.e. through
`dispatchNormal`). -/
def processByte (st : ScanState) (c : Nat) : ScanState :=
  if st.ss = 1 then
    -- case S_BOL: ss = S_NORMAL; fall through to S_NORMAL
    dispatchNormal st c
  else if st.ss = 0 then
    -- case S_NORMAL
    dispatchNormal st c
  else if st.ss = 2 then
    -- case S_CR
    if c = 10 then
      { st with crlfCount := st.crlfCount + 1,
                out := report (st.crlfCount + 1) Msg.crlf st.lineCount st.out,
                lineCount := st.lineCount + 1,
                ss := 1 }
    else
      -- bare CR: report, then reconsume c at reenter_point
      dispatchNormal (crIncident st) c
  else if st.ss = 3 then
    -- case S_UTF_EXPECT3
    if isUtf8Trailer c then
      { st with ss := 4 }
    else
      { st with badUtfCount := st.badUtfCount + 1,
                out := report (st.badUtfCount + 1) Msg.badUtf st.lineCount st.out,
                ss := 0 }
  else if st.ss = 4 then
    -- case S_UTF_EXPECT2
    if isUtf8Trailer c then
      { st with ss := 5 }
    else
      { st with badUtfCount := st.badUtfCount + 1,
                out := report (st.badUtfCount + 1) Msg.badUtf st.lineCount st.out,
                ss := 0 }
  else if st.ss = 5 then
    -- case S_UTF_EXPECT1
    if isUtf8Trailer c then
      { st with ss := 0 }
    else
      { st with badUtfCount := st.badUtfCount + 1,
                out := report (st.badUtfCount + 1) Msg.badUtf st.lineCount st.out,
                ss := 0 }
  else
    -- default: assert(0)
    { st with assertFailed := true }

/-- The state of `checkOneFile` just before the read loop:
`State ss = S_BOL;`, all counters zero, nothing printed. -/
def initState : ScanState :=
  { ss := 1, lineCount := 0, tabCount := 0, crlfCount := 0, crCount := 0,
    c1Count := 0, badUtfCount := 0, out := [], assertFailed := false }

/-- The post-loop check `if (ss != S_BOL) report(1, "Missing EOL at end
of file", ...)`; the constant first argument 1 makes `report` print
unconditionally. -/
def finishScan (st : ScanState) : ScanState :=
  if st.ss ≠ 1 then
    { st with out := report 1 Msg.missingEol st.lineCount st.out }
  else
    st

/-- The read loop of `checkOneFile` on a stream delivering the bytes
`l`, followed by the post-loop missing-EOL check.  Since
`while (ifs)` tests the stream before `ifs.get(c)` and a failing `get`
leaves `c` unchanged, one extra iteration runs after the stream is
exhausted, re-classifying the last byte read (or, for an empty stream,
the indeterminate initial value `c0` of the uninitialized `char c`). -/
def scanFile (c0 : Nat) (l : List Nat) : ScanState :=
  finishScan (processByte (l.foldl processByte initState) (l.getLast?.getD c0))

/-- Number of output lines whose message is `m`. -/
def countMsg (m : Msg) (out : List (Msg × Nat)) : Nat :=
  out.countP (fun e => decide (e.1 = m))

/-- One line of the program's standard output: either the per-file
`"Checking <path>"` announcement or an incident line
`"<path>(<line>) [ERROR] :<message>"`. -/
inductive OutLine where
  | checking : OutLine
  | incident : Msg → Nat → OutLine
deriving DecidableEq

/-- What a command-line argument can denote, as seen by
`checkOneFile`: a path that cannot be opened, a stream that fails
mid-read after delivering `bytes`, or a stream that delivers `bytes`
and then reports a clean end of file.  `c0` is the indeterminate
initial value of the loop variable `char c`. -/
inductive FileInput where
  | openFail : FileInput
  | readFail : List Nat → Nat → FileInput
  | good : List Nat → Nat → FileInput

/-- `bool checkOneFile(const char *filename)`: announce the file, scan
it, and return the verdict.  The announcement is printed before the
open, so it appears even for an unopenable file.  A mid-read failure
still runs the stale extra iteration and the missing-EOL check (both
precede the `ifs.eof()` test), but `!ifs.eof()` then makes the
function return `false`.  The `return true` at the end does not
consult any incident counter. -/
def checkFile (f : FileInput) : List OutLine × Bool :=
  match f with
  | .openFail => ([OutLine.checking], false)
  | .readFail bytes c0 =>
      (OutLine.checking ::
        (scanFile c0 bytes).out.map (fun e => OutLine.incident e.1 e.2), false)
  | .good bytes c0 =>
      (OutLine.checking ::
        (scanFile c0 bytes).out.map (fun e => OutLine.incident e.1 e.2), true)

/-- `int main(int argc, const char *argv[])`: scan the arguments in
order; on the first `checkOneFile` returning `false`, return
`EXIT_FAILURE` (1) at once; if the loop completes, return
`EXIT_SUCCESS` (0).  The result is (stdout lines, exit code). -/
def mainRun : List FileInput → List OutLine × Nat
  | [] => ([], 0)
  | f :: rest =>
    let r := checkFile f
    if r.2 then
      let r2 := mainRun rest
      (r.1 ++ r2.1, r2.2)
    else
      (r.1, 1)

/-- Number of `"Checking <path>"` announcements in an output. -/
def countChecking (out : List OutLine) : Nat :=
  out.countP (fun o => decide (o = OutLine.checking))

/-- First-occurrence bookkeeping for the tab incident: the number of
printed "Tab character" lines is 0 while the tab counter is 0 and 1
afterwards. -/
def TabInv (st : ScanState) : Prop :=
  countMsg Msg.tab st.out = if st.tabCount = 0 then 0 else 1

/-- State after scanning an arbitrary byte prefix `l` of a stream and
then the byte 0x41 ('A'). -/
def afterA (l : List Nat) : ScanState :=
  processByte (l.foldl processByte initState) 65

lemma dispatchNormal_assertFailed (st : ScanState) (c : Nat) :
    (dispatchNormal st c).assertFailed = st.assertFailed := by
  unfold dispatchNormal
  split_ifs <;> rfl

lemma dispatchNormal_ss_lt (st : ScanState) (c : Nat) : (dispatchNormal st c).ss < 6 := by
  unfold dispatchNormal
  split_ifs <;> simp

lemma dispatchNormal_ss_eq_one (st : ScanState) (c : Nat) :
    ((dispatchNormal st c).ss = 1) = (c = 10) := by
  unfold dispatchNormal
  split_ifs with h1 <;> simp_all

lemma crIncident_ss (st : ScanState) : (crIncident st).ss = 1 := rfl

lemma ss_cases (st : ScanState) (h : st.ss < 6) :
    st.ss = 0 ∨ st.ss = 1 ∨ st.ss = 2 ∨ st.ss = 3 ∨ st.ss = 4 ∨ st.ss = 5 := by omega

lemma processByte_ss_lt (st : ScanState) (c : Nat) (h : st.ss < 6) :
    (processByte st c).ss < 6 := by
  rcases ss_cases st h with h6 | h6 | h6 | h6 | h6 | h6 <;>
    simp only [processByte, h6] <;>
    split_ifs <;>
    simp [dispatchNormal_ss_lt]

lemma processByte_assertFailed (st : ScanState) (c : Nat) (h : st.ss < 6) :
    (processByte st c).assertFailed = st.assertFailed := by
  rcases ss_cases st h with h6 | h6 | h6 | h6 | h6 | h6 <;>
    simp only [processByte, h6] <;>
    split_ifs <;>
    simp [dispatchNormal_assertFailed, crIncident]

lemma dn65 (u : ScanState) : dispatchNormal u 65 = { u with ss := 0 } := by
  simp [dispatchNormal, (by decide : isUtf8Header3 65 = false),
    (by decide : isUtf8Header2 65 = false), (by decide : isUtf8Header1 65 = false),
    (by decide : isUtf8Trailer 65 = false)]

lemma foldl_ss_lt (l : List Nat) (st : ScanState) (h : st.ss < 6) :
    (l.foldl processByte st).ss < 6 := by
  induction l generalizing st with
  | nil => exact h
  | cons b t ih => exact ih _ (processByte_ss_lt st b h)

lemma foldl_assertFailed (l : List Nat) (st : ScanState) (h : st.ss < 6)
    (ha : st.assertFailed = false) : (l.foldl processByte st).assertFailed = false := by
  induction l generalizing st with
  | nil => exact ha
  | cons b t ih =>
      exact ih _ (processByte_ss_lt st b h)
        ((processByte_assertFailed st b h).trans ha)

-- BOL characterization
lemma processByte_ss_ne_one (st : ScanState) (c : Nat) (hc : c ≠ 10) :
    (processByte st c).ss ≠ 1 := by
  by_cases h : st.ss < 6
  · rcases ss_cases st h with h6 | h6 | h6 | h6 | h6 | h6 <;>
      simp only [processByte, h6] <;>
      split_ifs <;>
      simp_all [dispatchNormal_ss_eq_one]
  · simp only [processByte]
    split_ifs <;> simp_all [dispatchNormal_ss_eq_one]

lemma processByte_ten_ss (st : ScanState) (h : st.ss < 6) :
    (processByte st 10).ss = 0 ∨ (processByte st 10).ss = 1 := by
  rcases ss_cases st h with h6 | h6 | h6 | h6 | h6 | h6 <;>
    simp [processByte, h6, dispatchNormal, (by decide : isUtf8Trailer 10 = false)]

lemma processByte_bol_ten (st : ScanState) (h : st.ss = 0 ∨ st.ss = 1) :
    processByte st 10 = { st with ss := 1, lineCount := st.lineCount + 1 } := by
  rcases h with h | h <;> simp [processByte, h, dispatchNormal]

lemma countMsg_append_one (m m' : Msg) (n : Nat) (out : List (Msg × Nat)) :
    countMsg m (out ++ [(m', n)]) =
      countMsg m out + (if m' = m then 1 else 0) := by
  by_cases h : m' = m <;>
    simp [countMsg, List.countP_append, List.countP_cons, h]

lemma countMsg_report (m m' : Msg) (cnt lc : Nat) (out : List (Msg × Nat)) :
    countMsg m (report cnt m' lc out) =
      countMsg m out + (if cnt = 1 ∧ m' = m then 1 else 0) := by
  unfold report
  by_cases h1 : cnt = 1 <;> by_cases h2 : m' = m <;>
    simp [h1, h2, countMsg_append_one]

-- equation lemmas for processByte, one per reachable case of the switch
lemma processByte_bol (st : ScanState) (c : Nat) (h : st.ss = 1) :
    processByte st c = dispatchNormal st c := by
  simp [processByte, h]

lemma processByte_normal (st : ScanState) (c : Nat) (h : st.ss = 0) :
    processByte st c = dispatchNormal st c := by
  simp [processByte, h]

lemma processByte_cr_lf (st : ScanState) (h : st.ss = 2) :
    processByte st 10 =
      { st with crlfCount := st.crlfCount + 1,
                out := report (st.crlfCount + 1) Msg.crlf st.lineCount st.out,
                lineCount := st.lineCount + 1, ss := 1 } := by
  simp [processByte, h]

lemma processByte_cr_other (st : ScanState) (c : Nat) (h : st.ss = 2) (hc : c ≠ 10) :
    processByte st c = dispatchNormal (crIncident st) c := by
  simp [processByte, h, hc]

lemma processByte_utf_ok (st : ScanState) (c : Nat) (s' : Nat)
    (h : st.ss = 3 ∧ s' = 4 ∨ st.ss = 4 ∧ s' = 5 ∨ st.ss = 5 ∧ s' = 0)
    (ht : isUtf8Trailer c = true) :
    processByte st c = { st with ss := s' } := by
  rcases h with ⟨h, h'⟩ | ⟨h, h'⟩ | ⟨h, h'⟩ <;> subst h' <;> simp [processByte, h, ht]

lemma processByte_utf_bad (st : ScanState) (c : Nat)
    (h : st.ss = 3 ∨ st.ss = 4 ∨ st.ss = 5) (ht : isUtf8Trailer c = false) :
    processByte st c =
      { st with badUtfCount := st.badUtfCount + 1,
                out := report (st.badUtfCount + 1) Msg.badUtf st.lineCount st.out,
                ss := 0 } := by
  rcases h with h | h | h <;> simp [processByte, h, ht]

lemma processByte_default (st : ScanState) (c : Nat) (h : 6 ≤ st.ss) :
    processByte st c = { st with assertFailed := true } := by
  have h0 : ¬st.ss = 0 := by omega
  have h1 : ¬st.ss = 1 := by omega
  have h2 : ¬st.ss = 2 := by omega
  have h3 : ¬st.ss = 3 := by omega
  have h4 : ¬st.ss = 4 := by omega
  have h5 : ¬st.ss = 5 := by omega
  simp [processByte, h0, h1, h2, h3, h4, h5]

lemma dispatchNormal_countMsg (st : ScanState) (c : Nat) (m : Msg)
    (hm : m ≠ Msg.tab) (hm2 : m ≠ Msg.badUtf) (hm3 : m ≠ Msg.ctrl) :
    countMsg m (dispatchNormal st c).out = countMsg m st.out := by
  unfold dispatchNormal
  split_ifs <;> simp [countMsg_report, hm.symm, hm2.symm, hm3.symm]

lemma crIncident_countMsg (st : ScanState) (m : Msg) (hm : m ≠ Msg.bareCr) :
    countMsg m (crIncident st).out = countMsg m st.out := by
  simp [crIncident, countMsg_report, hm.symm]

-- processByte never prints the missing-EOL message
lemma processByte_missingEol (st : ScanState) (c : Nat) :
    countMsg Msg.missingEol (processByte st c).out = countMsg Msg.missingEol st.out := by
  by_cases h : st.ss < 6
  · rcases ss_cases st h with h6 | h6 | h6 | h6 | h6 | h6
    · rw [processByte_normal st c h6, dispatchNormal_countMsg] <;> simp
    · rw [processByte_bol st c h6, dispatchNormal_countMsg] <;> simp
    · by_cases hc : c = 10
      · subst hc; rw [processByte_cr_lf st h6]; simp [countMsg_report]
      · rw [processByte_cr_other st c h6 hc, dispatchNormal_countMsg, crIncident_countMsg]
          <;> simp
    · by_cases ht : isUtf8Trailer c
      · rw [processByte_utf_ok st c 4 (Or.inl ⟨h6, rfl⟩) ht]
      · rw [processByte_utf_bad st c (Or.inl h6) (by simpa using ht)]
        simp [countMsg_report]
    · by_cases ht : isUtf8Trailer c
      · rw [processByte_utf_ok st c 5 (Or.inr (Or.inl ⟨h6, rfl⟩)) ht]
      · rw [processByte_utf_bad st c (Or.inr (Or.inl h6)) (by simpa using ht)]
        simp [countMsg_report]
    · by_cases ht : isUtf8Trailer c
      · rw [processByte_utf_ok st c 0 (Or.inr (Or.inr ⟨h6, rfl⟩)) ht]
      · rw [processByte_utf_bad st c (Or.inr (Or.inr h6)) (by simpa using ht)]
        simp [countMsg_report]
  · rw [processByte_default st c (by omega)]

lemma foldl_missingEol (l : List Nat) (st : ScanState) :
    countMsg Msg.missingEol (l.foldl processByte st).out =
      countMsg Msg.missingEol st.out := by
  induction l generalizing st with
  | nil => rfl
  | cons b t ih => rw [List.foldl_cons, ih, processByte_missingEol]

-- equation lemmas for dispatchNormal, one per case of the switch on c
lemma dn_lf (st : ScanState) : dispatchNormal st 10 =
    { st with ss := 1, lineCount := st.lineCount + 1 } := by
  simp [dispatchNormal]

lemma dn_cr (st : ScanState) : dispatchNormal st 13 = { st with ss := 2 } := by
  simp [dispatchNormal]

lemma dn_tab (st : ScanState) : dispatchNormal st 9 =
    { st with ss := 0, tabCount := st.tabCount + 1,
              out := report (st.tabCount + 1) Msg.tab st.lineCount st.out } := by
  simp [dispatchNormal]

lemma dn_hdr3 (st : ScanState) (c : Nat) (e1 : c ≠ 10) (e2 : c ≠ 13) (e3 : c ≠ 9)
    (h : isUtf8Header3 c = true) : dispatchNormal st c = { st with ss := 3 } := by
  simp [dispatchNormal, e1, e2, e3, h]

lemma dn_hdr2 (st : ScanState) (c : Nat) (e1 : c ≠ 10) (e2 : c ≠ 13) (e3 : c ≠ 9)
    (n3 : isUtf8Header3 c = false) (h : isUtf8Header2 c = true) :
    dispatchNormal st c = { st with ss := 4 } := by
  simp [dispatchNormal, e1, e2, e3, n3, h]

lemma dn_hdr1 (st : ScanState) (c : Nat) (e1 : c ≠ 10) (e2 : c ≠ 13) (e3 : c ≠ 9)
    (n3 : isUtf8Header3 c = false) (n2 : isUtf8Header2 c = false)
    (h : isUtf8Header1 c = true) : dispatchNormal st c = { st with ss := 5 } := by
  simp [dispatchNormal, e1, e2, e3, n3, n2, h]

lemma dn_trailer (st : ScanState) (c : Nat) (e1 : c ≠ 10) (e2 : c ≠ 13) (e3 : c ≠ 9)
    (n3 : isUtf8Header3 c = false) (n2 : isUtf8Header2 c = false)
    (n1 : isUtf8Header1 c = false) (h : isUtf8Trailer c = true) :
    dispatchNormal st c =
      { st with ss := 0, badUtfCount := st.badUtfCount + 1,
                out := report (st.badUtfCount + 1) Msg.badUtf st.lineCount st.out } := by
  simp [dispatchNormal, e1, e2, e3, n3, n2, n1, h]

lemma dn_ctrl (st : ScanState) (c : Nat) (e1 : c ≠ 10) (e2 : c ≠ 13) (e3 : c ≠ 9)
    (n3 : isUtf8Header3 c = false) (n2 : isUtf8Header2 c = false)
    (n1 : isUtf8Header1 c = false) (nt : isUtf8Trailer c = false) (h : c < 32) :
    dispatchNormal st c =
      { st with ss := 0, c1Count := st.c1Count + 1,
                out := report (st.c1Count + 1) Msg.ctrl st.lineCount st.out } := by
  simp [dispatchNormal, e1, e2, e3, n3, n2, n1, nt, h]

lemma dn_plain (st : ScanState) (c : Nat) (e1 : c ≠ 10) (e2 : c ≠ 13) (e3 : c ≠ 9)
    (n3 : isUtf8Header3 c = false) (n2 : isUtf8Header2 c = false)
    (n1 : isUtf8Header1 c = false) (nt : isUtf8Trailer c = false) (h : ¬c < 32) :
    dispatchNormal st c = { st with ss := 0 } := by
  simp [dispatchNormal, e1, e2, e3, n3, n2, n1, nt, h]


lemma tabInv_dispatchNormal (st : ScanState) (c : Nat) (h : TabInv st) :
    TabInv (dispatchNormal st c) := by
  unfold TabInv at h ⊢
  by_cases e1 : c = 10
  · rw [e1, dn_lf]; simpa using h
  by_cases e2 : c = 13
  · rw [e2, dn_cr]; simpa using h
  by_cases e3 : c = 9
  · rw [e3, dn_tab]
    simp only [countMsg_report]
    split_ifs <;> simp_all
  rcases Bool.eq_false_or_eq_true (isUtf8Header3 c) with n3 | n3
  · rw [dn_hdr3 st c e1 e2 e3 n3]; simpa using h
  rcases Bool.eq_false_or_eq_true (isUtf8Header2 c) with n2 | n2
  · rw [dn_hdr2 st c e1 e2 e3 n3 n2]; simpa using h
  rcases Bool.eq_false_or_eq_true (isUtf8Header1 c) with n1 | n1
  · rw [dn_hdr1 st c e1 e2 e3 n3 n2 n1]; simpa using h
  rcases Bool.eq_false_or_eq_true (isUtf8Trailer c) with nt | nt
  · rw [dn_trailer st c e1 e2 e3 n3 n2 n1 nt]
    simp only [countMsg_report]
    simpa using h
  by_cases hlt : c < 32
  · rw [dn_ctrl st c e1 e2 e3 n3 n2 n1 nt hlt]
    simp only [countMsg_report]
    simpa using h
  · rw [dn_plain st c e1 e2 e3 n3 n2 n1 nt hlt]
    simpa using h

lemma tabInv_crIncident (st : ScanState) (h : TabInv st) : TabInv (crIncident st) := by
  unfold TabInv at h ⊢
  rw [crIncident_countMsg st Msg.tab (by simp)]
  exact h

lemma tabInv_step (st : ScanState) (c : Nat) (h : TabInv st) :
    TabInv (processByte st c) := by
  by_cases hlt : st.ss < 6
  · rcases ss_cases st hlt with h6 | h6 | h6 | h6 | h6 | h6
    · rw [processByte_normal st c h6]; exact tabInv_dispatchNormal st c h
    · rw [processByte_bol st c h6]; exact tabInv_dispatchNormal st c h
    · by_cases hc : c = 10
      · subst hc; rw [processByte_cr_lf st h6]
        unfold TabInv at h ⊢
        simpa [countMsg_report] using h
      · rw [processByte_cr_other st c h6 hc]
        exact tabInv_dispatchNormal _ c (tabInv_crIncident st h)
    · rcases Bool.eq_false_or_eq_true (isUtf8Trailer c) with nt | nt
      · rw [processByte_utf_ok st c 4 (Or.inl ⟨h6, rfl⟩) nt]; exact h
      · rw [processByte_utf_bad st c (Or.inl h6) nt]
        unfold TabInv at h ⊢
        simpa [countMsg_report] using h
    · rcases Bool.eq_false_or_eq_true (isUtf8Trailer c) with nt | nt
      · rw [processByte_utf_ok st c 5 (Or.inr (Or.inl ⟨h6, rfl⟩)) nt]; exact h
      · rw [processByte_utf_bad st c (Or.inr (Or.inl h6)) nt]
        unfold TabInv at h ⊢
        simpa [countMsg_report] using h
    · rcases Bool.eq_false_or_eq_true (isUtf8Trailer c) with nt | nt
      · rw [processByte_utf_ok st c 0 (Or.inr (Or.inr ⟨h6, rfl⟩)) nt]; exact h
      · rw [processByte_utf_bad st c (Or.inr (Or.inr h6)) nt]
        unfold TabInv at h ⊢
        simpa [countMsg_report] using h
  · rw [processByte_default st c (by omega)]; exact h

lemma tabInv_foldl (l : List Nat) (st : ScanState) (h : TabInv st) :
    TabInv (l.foldl processByte st) := by
  induction l generalizing st with
  | nil => exact h
  | cons b t ih => exact ih _ (tabInv_step st b h)

lemma tabInv_finishScan (st : ScanState) (h : TabInv st) : TabInv (finishScan st) := by
  unfold TabInv at h ⊢
  unfold finishScan
  by_cases hss : st.ss ≠ 1
  · simp only [if_pos hss, countMsg_report]
    simpa using h
  · simp only [if_neg hss]
    exact h

lemma tabInv_scanFile (c0 : Nat) (l : List Nat) : TabInv (scanFile c0 l) := by
  unfold scanFile
  refine tabInv_finishScan _ (tabInv_step _ _ (tabInv_foldl l initState ?_))
  simp [TabInv, initState, countMsg]

-- bytes below 0x80 are never UTF-8 lead or continuation bytes
lemma ascii_not_trailer (b : Nat) (hb : b < 128) : isUtf8Trailer b = false := by
  have hle : b &&& 192 ≤ b := Nat.and_le_left
  simp only [isUtf8Trailer, beq_eq_false_iff_ne, ne_eq]
  omega

lemma ascii_not_hdr1 (b : Nat) (hb : b < 128) : isUtf8Header1 b = false := by
  have hle : b &&& 224 ≤ b := Nat.and_le_left
  simp only [isUtf8Header1, beq_eq_false_iff_ne, ne_eq]
  omega

lemma ascii_not_hdr2 (b : Nat) (hb : b < 128) : isUtf8Header2 b = false := by
  have hle : b &&& 240 ≤ b := Nat.and_le_left
  simp only [isUtf8Header2, beq_eq_false_iff_ne, ne_eq]
  omega

lemma ascii_not_hdr3 (b : Nat) (hb : b < 128) : isUtf8Header3 b = false := by
  have hle : b &&& 248 ≤ b := Nat.and_le_left
  simp only [isUtf8Header3, beq_eq_false_iff_ne, ne_eq]
  omega

/-- A clean-ASCII byte (printable ASCII or a LF) keeps the machine in
the NORMAL/BOL states and prints nothing. -/
lemma clean_step (st : ScanState) (b : Nat) (hb : b < 128) (hc : b < 32 → b = 10)
    (hss : st.ss = 0 ∨ st.ss = 1) (hout : st.out = []) :
    ((processByte st b).ss = 0 ∨ (processByte st b).ss = 1) ∧
      (processByte st b).out = [] := by
  have hpb : processByte st b = dispatchNormal st b := by
    rcases hss with h | h
    · exact processByte_normal st b h
    · exact processByte_bol st b h
  rw [hpb]
  by_cases e1 : b = 10
  · rw [e1, dn_lf]; simp [hout]
  have e2 : b ≠ 13 := by intro hx; subst hx; omega
  have e3 : b ≠ 9 := by intro hx; subst hx; omega
  have hge : ¬b < 32 := by
    intro hx
    exact e1 (hc hx)
  rw [dn_plain st b e1 e2 e3 (ascii_not_hdr3 b hb) (ascii_not_hdr2 b hb)
    (ascii_not_hdr1 b hb) (ascii_not_trailer b hb) hge]
  simp [hout]

lemma clean_foldl (l : List Nat) (st : ScanState)
    (hl : ∀ b ∈ l, b < 128 ∧ (b < 32 → b = 10))
    (hss : st.ss = 0 ∨ st.ss = 1) (hout : st.out = []) :
    (((l.foldl processByte st).ss = 0 ∨ (l.foldl processByte st).ss = 1) ∧
      (l.foldl processByte st).out = []) := by
  induction l generalizing st with
  | nil => exact ⟨hss, hout⟩
  | cons b t ih =>
      have hb := hl b (by simp)
      have hstep := clean_step st b hb.1 hb.2 hss hout
      exact ih _ (fun x hx => hl x (by simp [hx])) hstep.1 hstep.2

lemma countChecking_cons_incident (m : Msg) (n : Nat) (t : List OutLine) :
    countChecking (OutLine.incident m n :: t) = countChecking t := by
  simp [countChecking, List.countP_cons]

lemma countChecking_incidents (out : List (Msg × Nat)) :
    countChecking (out.map (fun e => OutLine.incident e.1 e.2)) = 0 := by
  induction out with
  | nil => rfl
  | cons e t ih => simpa [countChecking_cons_incident] using ih

lemma checkFile_countChecking (f : FileInput) : countChecking (checkFile f).1 = 1 := by
  cases f <;>
    simp [checkFile, countChecking, List.countP_cons, countChecking_incidents]

lemma mainRun_exit_zero_iff (files : List FileInput) :
    (mainRun files).2 = 0 ↔ ∀ f ∈ files, (checkFile f).2 = true := by
  induction files with
  | nil => simp [mainRun]
  | cons f rest ih =>
      by_cases hf : (checkFile f).2 = true
      · simp [mainRun, hf, ih]
      · simp [mainRun, hf]

lemma mainRun_all_good (files : List FileInput)
    (h : ∀ f ∈ files, (checkFile f).2 = true) :
    countChecking (mainRun files).1 = files.length ∧ (mainRun files).2 = 0 := by
  induction files with
  | nil => simp [mainRun, countChecking]
  | cons f rest ih =>
      have hf : (checkFile f).2 = true := h f (by simp)
      have ih2 := ih (fun g hg => h g (by simp [hg]))
      simp [mainRun, hf, countChecking, List.countP_append]
      constructor
      · have h1 := checkFile_countChecking f
        simp [countChecking] at h1 ih2
        omega
      · exact ih2.2

lemma mainRun_first_fail (pre : List FileInput) (f : FileInput) (post : List FileInput)
    (hpre : ∀ g ∈ pre, (checkFile g).2 = true) (hf : (checkFile f).2 = false) :
    countChecking (mainRun (pre ++ f :: post)).1 = pre.length + 1 ∧
      (mainRun (pre ++ f :: post)).2 = 1 := by
  induction pre with
  | nil =>
      simp [mainRun, hf, checkFile_countChecking f]
  | cons g t ih =>
      have hg : (checkFile g).2 = true := hpre g (by simp)
      have ih2 := ih (fun x hx => hpre x (by simp [hx]))
      simp only [List.cons_append, mainRun, hg, if_pos]
      constructor
      · have h1 := checkFile_countChecking g
        simp only [countChecking, List.countP_append] at h1 ih2 ⊢
        simp [h1, ih2.1]
        omega
      · simpa using ih2.2

lemma finishScan_missing (st : ScanState) :
    countMsg Msg.missingEol (finishScan st).out =
      countMsg Msg.missingEol st.out + (if st.ss = 1 then 0 else 1) := by
  unfold finishScan
  by_cases h : st.ss ≠ 1
  · simp only [if_pos h, countMsg_report]
    simp [h]
  · simp only [if_neg h]
    simp at h
    simp [h]

lemma scanFile_missing_count (c0 : Nat) (l : List Nat) (b : Nat)
    (h : l.getLast? = some b) :
    countMsg Msg.missingEol (scanFile c0 l).out = if b = 10 then 0 else 1 := by
  have hne : l ≠ [] := by
    intro hx
    subst hx
    simp at h
  have hb : b = l.getLast hne := by
    have := List.getLast?_eq_getLast l hne
    rw [h] at this
    exact Option.some_injective _ this
  have hdec : l.dropLast ++ [b] = l := by
    rw [hb]
    exact List.dropLast_append_getLast hne
  unfold scanFile
  rw [h]
  simp only [Option.getD_some]
  have hfold : l.foldl processByte initState =
      processByte (l.dropLast.foldl processByte initState) b := by
    conv_lhs => rw [← hdec]
    rw [List.foldl_append]
    rfl
  have hss' : (l.dropLast.foldl processByte initState).ss < 6 :=
    foldl_ss_lt _ _ (by simp [initState])
  have hcount0 : countMsg Msg.missingEol (l.foldl processByte initState).out = 0 := by
    rw [foldl_missingEol]
    simp [initState, countMsg]
  by_cases hb10 : b = 10
  · subst hb10
    have hmem : (l.foldl processByte initState).ss = 0 ∨
        (l.foldl processByte initState).ss = 1 := by
      rw [hfold]
      exact processByte_ten_ss _ hss'
    rw [processByte_bol_ten _ hmem, finishScan_missing]
    simp [hcount0]
  · have hne1 : (processByte (l.foldl processByte initState) b).ss ≠ 1 :=
      processByte_ss_ne_one _ b hb10
    rw [finishScan_missing]
    simp [hne1, hb10, processByte_missingEol, hcount0]

lemma dn66 (u : ScanState) : dispatchNormal u 66 = { u with ss := 0 } := by
  simp [dispatchNormal, (by decide : isUtf8Header3 66 = false),
    (by decide : isUtf8Header2 66 = false), (by decide : isUtf8Header1 66 = false),
    (by decide : isUtf8Trailer 66 = false)]

/-- Processing the byte 0x41 ('A') from any well-formed machine state
leaves the machine in S_NORMAL. -/
lemma pb65_ss (st : ScanState) (h : st.ss < 6) : (processByte st 65).ss = 0 := by
  rcases ss_cases st h with h6 | h6 | h6 | h6 | h6 | h6
  · rw [processByte_normal st 65 h6, dn65]
  · rw [processByte_bol st 65 h6, dn65]
  · rw [processByte_cr_other st 65 h6 (by decide), dn65]
  · rw [processByte_utf_bad st 65 (Or.inl h6) (by decide)]
  · rw [processByte_utf_bad st 65 (Or.inr (Or.inl h6)) (by decide)]
  · rw [processByte_utf_bad st 65 (Or.inr (Or.inr h6)) (by decide)]

lemma scanFile_concat (c0 : Nat) (l : List Nat) (b : Nat) :
    scanFile c0 (l ++ [b]) =
      finishScan (processByte (processByte (l.foldl processByte initState) b) b) := by
  unfold scanFile
  rw [List.foldl_append, List.getLast?_concat]
  rfl

lemma finishScan_assertFailed (st : ScanState) :
    (finishScan st).assertFailed = st.assertFailed := by
  unfold finishScan
  split_ifs <;> rfl

lemma clean_scan (c0 : Nat) (l : List Nat)
    (hl : ∀ b ∈ l, b < 128 ∧ (b < 32 → b = 10))
    (hlast : l.getLast? = some 10) : (scanFile c0 l).out = [] := by
  have hfold := clean_foldl l initState hl (by simp [initState]) (by simp [initState])
  unfold scanFile
  rw [hlast]
  simp only [Option.getD_some]
  rw [processByte_bol_ten _ hfold.1]
  unfold finishScan
  simp [hfold.2]


/-- C1: in a stream A CR LF B, the CR LF pair produces exactly one
Windows-newline incident and advances the line counter by exactly one;
in a stream A CR B (no LF after the CR), the CR produces exactly one
bare-CR incident, advances the line counter by one, and B is then
classified afresh under NORMAL (a tab in place of B would be counted,
B leaves the machine in NORMAL, and no counter moves twice). -/
theorem crlf_and_bare_cr_distinction (l : List Nat) :
    (([13, 10, 66].foldl processByte (afterA l)).crlfCount = (afterA l).crlfCount + 1 ∧
     ([13, 10, 66].foldl processByte (afterA l)).lineCount = (afterA l).lineCount + 1 ∧
     ([13, 10, 66].foldl processByte (afterA l)).crCount = (afterA l).crCount ∧
     ([13, 10, 66].foldl processByte (afterA l)).ss = 0) ∧
    (([13, 66].foldl processByte (afterA l)).crCount = (afterA l).crCount + 1 ∧
     ([13, 66].foldl processByte (afterA l)).lineCount = (afterA l).lineCount + 1 ∧
     ([13, 66].foldl processByte (afterA l)).crlfCount = (afterA l).crlfCount ∧
     ([13, 66].foldl processByte (afterA l)).tabCount = (afterA l).tabCount ∧
     ([13, 66].foldl processByte (afterA l)).badUtfCount = (afterA l).badUtfCount ∧
     ([13, 66].foldl processByte (afterA l)).ss = 0) ∧
    ([13, 9].foldl processByte (afterA l)).tabCount = (afterA l).tabCount + 1 ∧
    (scanFile 0 [65, 13, 10, 66]).crlfCount = 1 ∧
    (scanFile 0 [65, 13, 10, 66]).lineCount = 1 ∧
    (scanFile 0 [65, 13, 10, 66]).crCount = 0 ∧
    countMsg Msg.crlf (scanFile 0 [65, 13, 10, 66]).out = 1 ∧
    (scanFile 0 [65, 13, 66]).crCount = 1 ∧
    (scanFile 0 [65, 13, 66]).lineCount = 1 ∧
    (scanFile 0 [65, 13, 66]).crlfCount = 0 ∧
    countMsg Msg.bareCr (scanFile 0 [65, 13, 66]).out = 1 := by
  have hlt : (l.foldl processByte initState).ss < 6 :=
    foldl_ss_lt l initState (by simp [initState])
  have h0 : (afterA l).ss = 0 := pb65_ss _ hlt
  refine ⟨?_, ?_, ?_, by decide, by decide, by decide, by decide, by decide,
    by decide, by decide, by decide⟩ <;>
    simp [processByte_normal, processByte_bol, processByte_cr_lf, processByte_cr_other,
      dn_cr, dn66, dn_tab, h0, crIncident]

/-- C2: evaluation of the scanner on the claim's UTF-8 inputs.  A file
consisting exactly of the well-formed 3-byte sequence E2 82 AC yields
ONE bad-UTF8 incident (the claim says zero): the extra loop iteration
after end-of-stream re-classifies the final trailer byte AC in NORMAL
state, where a lone trailer is an incident.  Followed by a LF the same
sequence yields zero.  E2 41 yields exactly one incident, and a lone
80 increments the counter to 2 (printed once) for the same reason. -/
theorem utf8_incident_counts : (scanFile 0 [226, 130, 172]).badUtfCount = 1 ∧
    countMsg Msg.badUtf (scanFile 0 [226, 130, 172]).out = 1 ∧
    (scanFile 0 [226, 130, 172, 10]).badUtfCount = 0 ∧
    countMsg Msg.badUtf (scanFile 0 [226, 130, 172, 10]).out = 0 ∧
    (scanFile 0 [226, 65]).badUtfCount = 1 ∧
    countMsg Msg.badUtf (scanFile 0 [226, 65]).out = 1 ∧
    (scanFile 0 [226, 65, 66]).badUtfCount = 1 ∧
    (scanFile 0 [128]).badUtfCount = 2 ∧
    countMsg Msg.badUtf (scanFile 0 [128]).out = 1 := by decide

/-- C3 counterexample: the file A CR ends in a recognized line
terminator (a bare CR), yet the scan prints the Missing EOL line: the
machine is left in AFTER_CR, not BEGIN_OF_LINE, at end of stream. -/
theorem missing_eol_printed_after_trailing_cr :
    countMsg Msg.missingEol (scanFile 0 [65, 13]).out = 1 := by decide

/-- C3 (amended): for every nonempty file, exactly one Missing EOL
line is printed when the last byte is not a LF — including files ending
in a bare CR — and none when the last byte is a LF (lone LF or CRLF). -/
theorem missing_eol_iff_last_byte_not_lf (c0 : Nat) (l : List Nat) (b : Nat)
    (h : l.getLast? = some b) :
    countMsg Msg.missingEol (scanFile c0 l).out = if b = 10 then 0 else 1 :=
  scanFile_missing_count c0 l b h

/-- Witness for the amended C3 at the concrete files A a and A LF. -/
theorem missing_eol_iff_last_byte_not_lf_w :
    countMsg Msg.missingEol (scanFile 0 [65, 97]).out = (if (97 : Nat) = 10 then 0 else 1) ∧
    countMsg Msg.missingEol (scanFile 0 [65, 10]).out = (if (10 : Nat) = 10 then 0 else 1) :=
  ⟨missing_eol_iff_last_byte_not_lf 0 [65, 97] 97 (by decide),
   missing_eol_iff_last_byte_not_lf 0 [65, 10] 10 (by decide)⟩

/-- C4 counterexample: the file E2 09 41 contains a tab byte (not part
of any line terminator), yet no Tab line is printed and the tab counter
stays 0: the tab is consumed as a failed expected UTF-8 continuation
byte and classified as a bad-UTF8 incident instead. -/
theorem tab_line_missing_when_tab_swallowed :
    (9 : Nat) ∈ ([226, 9, 65] : List Nat) ∧
    countMsg Msg.tab (scanFile 0 [226, 9, 65]).out = 0 ∧
    (scanFile 0 [226, 9, 65]).tabCount = 0 := by decide

/-- C4 (amended): exactly one Tab character line is printed iff the tab
counter ends positive, i.e. iff some tab byte was classified in NORMAL
state (a tab consumed as an expected UTF-8 continuation byte is not
counted); the line carries the 1-based line number of the first counted
tab, and five tabs on five lines yield a counter of 5 with a single
printed line naming line 1. -/
theorem tab_reported_once (c0 : Nat) (l : List Nat) :
    (countMsg Msg.tab (scanFile c0 l).out
        = if (scanFile c0 l).tabCount = 0 then 0 else 1) ∧
    (scanFile 0 [9, 65, 10, 9, 66, 10, 9, 67, 10, 9, 68, 10, 9, 69, 10]).tabCount = 5 ∧
    (scanFile 0 [9, 65, 10, 9, 66, 10, 9, 67, 10, 9, 68, 10, 9, 69, 10]).out
        = [(Msg.tab, 1)] :=
  ⟨tabInv_scanFile c0 l, by decide, by decide⟩

/-- C5: the line counter does NOT advance exactly once per terminator:
the failing read at end-of-stream leaves the byte variable holding the
final LF, which is counted a second time, so the file a LF ends with
line counter 2 (one terminator) and a LF b LF with 3 (two). -/
theorem line_counter_double_counts_final_lf :
    (scanFile 0 [97, 10]).lineCount = 2 ∧
    (scanFile 0 [97, 10, 98, 10]).lineCount = 3 := by decide

/-- C6: the verdict of a file scan is true exactly when no I/O-level
failure occurred — unconditionally true for any content, false for an
unopenable file or a mid-read failure — and the process exit code is 0
iff every scanned file's verdict is true. -/
theorem exit_code_iff_no_io_failure :
    (∀ (bytes : List Nat) (c0 : Nat), (checkFile (FileInput.good bytes c0)).2 = true) ∧
    (checkFile FileInput.openFail).2 = false ∧
    (∀ (bytes : List Nat) (c0 : Nat), (checkFile (FileInput.readFail bytes c0)).2 = false) ∧
    ∀ files : List FileInput, (mainRun files).2 = 0 ↔ ∀ f ∈ files, (checkFile f).2 = true :=
  ⟨fun _ _ => rfl, rfl, fun _ _ => rfl, mainRun_exit_zero_iff⟩

/-- C7 counterexample: with the argument list [unopenable file, good
file], the program prints exactly one Checking announcement and exits:
the argument after the failing file is never scanned. -/
theorem arguments_after_failure_not_scanned :
    mainRun [FileInput.openFail, FileInput.good [] 0] = ([OutLine.checking], 1) ∧
    countChecking (mainRun [FileInput.openFail, FileInput.good [] 0]).1 = 1 := by decide

/-- C7 (amended): arguments are scanned independently in order only up
to and including the first file whose scan fails; when no scan fails
every argument is scanned and the exit code is 0, and when one fails
the arguments after it are not scanned and the exit code is 1. -/
theorem files_scanned_up_to_first_failure :
    (∀ files : List FileInput, (∀ f ∈ files, (checkFile f).2 = true) →
      countChecking (mainRun files).1 = files.length ∧ (mainRun files).2 = 0) ∧
    ∀ (pre : List FileInput) (f : FileInput) (post : List FileInput),
      (∀ g ∈ pre, (checkFile g).2 = true) → (checkFile f).2 = false →
      countChecking (mainRun (pre ++ f :: post)).1 = pre.length + 1 ∧
        (mainRun (pre ++ f :: post)).2 = 1 :=
  ⟨mainRun_all_good, mainRun_first_fail⟩

/-- Witness for the amended C7: one good file alone, and a good file
followed by an unopenable one and another good one. -/
theorem files_scanned_up_to_first_failure_w :
    (countChecking (mainRun [FileInput.good [] 0]).1 = 1 ∧
      (mainRun [FileInput.good [] 0]).2 = 0) ∧
    countChecking
        (mainRun ([FileInput.good [] 0] ++ FileInput.openFail :: [FileInput.good [] 0])).1
      = 1 + 1 ∧
    (mainRun ([FileInput.good [] 0] ++ FileInput.openFail :: [FileInput.good [] 0])).2 = 1 := by
  refine ⟨files_scanned_up_to_first_failure.1 [FileInput.good [] 0] ?_,
    files_scanned_up_to_first_failure.2 [FileInput.good [] 0] FileInput.openFail
      [FileInput.good [] 0] ?_ rfl⟩
  · intro f hf
    rw [List.mem_singleton] at hf
    subst hf
    rfl
  · intro g hg
    rw [List.mem_singleton] at hg
    subst hg
    rfl

/-- C8 counterexample: the one-byte pure-ASCII file a (0x61), which
satisfies all the claim's hypotheses, nevertheless produces an
incident line: the unconditional Missing EOL report. -/
theorem ascii_file_without_final_lf_prints_incident :
    (∀ b ∈ ([97] : List Nat), b < 128 ∧ (b < 32 → b = 10)) ∧
    (checkFile (FileInput.good [97] 0)).1 =
      [OutLine.checking, OutLine.incident Msg.missingEol 1] := by decide

/-- C8 (amended): a pure 7-bit-ASCII file with no control byte below
0x20 other than LF, whose last byte is a LF, produces no incident line
at all — the scan output is exactly the Checking announcement. -/
theorem clean_ascii_no_incident_lines (c0 : Nat) (l : List Nat)
    (hl : ∀ b ∈ l, b < 128 ∧ (b < 32 → b = 10))
    (hlast : l.getLast? = some 10) :
    (checkFile (FileInput.good l c0)).1 = [OutLine.checking] := by
  simp [checkFile, clean_scan c0 l hl hlast]

/-- Witness for the amended C8 at the concrete file h i LF. -/
theorem clean_ascii_no_incident_lines_w :
    (checkFile (FileInput.good [104, 105, 10] 0)).1 = [OutLine.checking] :=
  clean_ascii_no_incident_lines 0 [104, 105, 10] (by decide) (by decide)

/-- C9: the state variable only ever holds one of the six declared
enumerator values along any scan, so the default branch of the switch
(the assert(0)) is never reached: after any byte prefix the state is
below 6 and the assertion flag is still clear, and a whole scan ends
with the flag clear. -/
theorem state_switch_total (c0 : Nat) (l : List Nat) :
    (l.foldl processByte initState).ss < 6 ∧
    (l.foldl processByte initState).assertFailed = false ∧
    (scanFile c0 l).assertFailed = false := by
  have h1 := foldl_ss_lt l initState (by simp [initState])
  have h2 := foldl_assertFailed l initState (by simp [initState]) (by simp [initState])
  refine ⟨h1, h2, ?_⟩
  unfold scanFile
  rw [finishScan_assertFailed, processByte_assertFailed _ _ h1, h2]

/-- C10: one extra loop iteration runs after the last byte: a scan of
l ++ [b] is the scan of l, then b, then b again; an empty file
classifies the indeterminate initial byte value c0; consequently the
final byte double-increments the counters it touches (message printed
once), a final LF double-increments the line counter, and two
different indeterminate values give an empty file different counters. -/
theorem final_byte_processed_twice :
    (∀ (c0 : Nat) (l : List Nat) (b : Nat),
      scanFile c0 (l ++ [b]) =
        finishScan (processByte (processByte (l.foldl processByte initState) b) b)) ∧
    (∀ c0 : Nat, scanFile c0 [] = finishScan (processByte initState c0)) ∧
    (scanFile 0 [97, 10]).lineCount = 2 ∧
    (scanFile 0 [9]).tabCount = 2 ∧
    countMsg Msg.tab (scanFile 0 [9]).out = 1 ∧
    (scanFile 128 []).badUtfCount = 1 ∧
    (scanFile 65 []).badUtfCount = 0 :=
  ⟨scanFile_concat, fun _ => rfl, by decide, by decide, by decide, by decide, by decide⟩
